import Mathlib

/-!
Shallow embedding of the SPI transport backend of an SSD1306 OLED driver
(source file `ssd1306_spi.c`).  Pure data is modelled directly; the external
collaborators (SPI bus, GPIO facility, delay primitive, allocator) are
modelled by environments that supply their return values, and the calls the
code makes to them are recorded as an event trace.  Pointers that the code
only tests for nullity are modelled as `Bool`/`Option` values; `uintptr_t`
is modelled as `Nat` below `2 ^ 32` (the target is a 32-bit MCU).
-/

namespace Ssd1306

/-- esp_err_t success value `ESP_OK` (esp_err.h). -/
def ESP_OK : Int := 0

/-- esp_err_t code `ESP_ERR_NO_MEM` (esp_err.h). -/
def ESP_ERR_NO_MEM : Int := 0x101

/-- esp_err_t code `ESP_ERR_INVALID_ARG` (esp_err.h). -/
def ESP_ERR_INVALID_ARG : Int := 0x102

/-- gpio_num_t value `GPIO_NUM_NC` (-1): pin not connected. -/
def GPIO_NUM_NC : Int := -1

/-- struct ssd1306_spi_ctx_t: the SPI backend context.  `dev` models the
`spi_device_handle_t` pointer being non-null. -/
structure ssd1306_spi_ctx_t where
  dev : Bool
  host : Int
  dc_gpio : Int
  rst_gpio : Int
  clk_hz : Int
  deriving DecidableEq, Repr

/-- struct ssd1306_t, restricted to the two fields this file touches.
`vt = true` models `d->vt == &VT_SPI`, `vt = false` models `d->vt == NULL`;
`bus_ctx` is the backend context pointer. -/
structure ssd1306_t where
  vt : Bool
  bus_ctx : Option ssd1306_spi_ctx_t
  deriving DecidableEq, Repr

/-- Calls the code makes to its external collaborators (GPIO facility,
delay primitive, SPI bus registry, allocator), recorded in program order. -/
inductive Event where
  | gpioConfigOutput (pin : Int)
  | gpioConfigDisable (pin : Int)
  | gpioSetLevel (pin : Int) (level : Int)
  | delayMs (ms : Int)
  | busAddDevice (host cs clk : Int)
  | busRemoveDevice
  | publishHandle
  | freeCtx
  deriving DecidableEq, Repr

/-- gpio_conf_output: no-op on `GPIO_NUM_NC`, otherwise gpio_config as
output followed by gpio_set_level to the requested level. -/
def gpio_conf_output (pin level : Int) : List Event :=
  if pin = GPIO_NUM_NC then []
  else [Event.gpioConfigOutput pin, Event.gpioSetLevel pin level]

/-- gpio_conf_disable: no-op on `GPIO_NUM_NC`, otherwise gpio_config with
mode `GPIO_MODE_DISABLE`. -/
def gpio_conf_disable (pin : Int) : List Event :=
  if pin = GPIO_NUM_NC then [] else [Event.gpioConfigDisable pin]

/-- Return values supplied by the environment during `ssd1306_bind_spi`:
the result of `spi_bus_add_device` and whether `calloc` succeeds. -/
structure BindEnv where
  add_device_result : Int
  calloc_ok : Bool
  deriving DecidableEq, Repr

/-- ssd1306_bind_spi.  `dNull` models calling it with a null `d`.  Returns
the esp_err_t result, the final state of `*d`, and the event trace. -/
def ssd1306_bind_spi (dNull : Bool) (d : ssd1306_t)
    (host cs_gpio dc_gpio rst_gpio clk_hz : Int) (env : BindEnv) :
    Int × ssd1306_t × List Event :=
  if dNull then (ESP_ERR_INVALID_ARG, d, [])
  else if dc_gpio = GPIO_NUM_NC then (ESP_ERR_INVALID_ARG, d, [])
  else
    let clk : Int := if clk_hz ≤ 0 then 8 * 1000 * 1000 else clk_hz
    let tr1 : List Event :=
      gpio_conf_output dc_gpio 0 ++ gpio_conf_output rst_gpio 1 ++
        [Event.busAddDevice host cs_gpio clk]
    if env.add_device_result ≠ ESP_OK then (env.add_device_result, d, tr1)
    else if env.calloc_ok = false then
      (ESP_ERR_NO_MEM, d, tr1 ++ [Event.busRemoveDevice])
    else
      let ctx : ssd1306_spi_ctx_t :=
        { dev := true, host := host, dc_gpio := dc_gpio,
          rst_gpio := rst_gpio, clk_hz := clk }
      let pulse : List Event :=
        if rst_gpio ≠ GPIO_NUM_NC then
          [Event.gpioSetLevel rst_gpio 1, Event.delayMs 1,
           Event.gpioSetLevel rst_gpio 0, Event.delayMs 1,
           Event.gpioSetLevel rst_gpio 1, Event.delayMs 5]
        else []
      (ESP_OK, { vt := true, bus_ctx := some ctx },
       tr1 ++ pulse ++ [Event.publishHandle])

/-- Return value supplied by the environment during `ssd1306_unbind_spi`:
the result of `spi_bus_remove_device`. -/
structure UnbindEnv where
  remove_device_result : Int
  deriving DecidableEq, Repr

/-- ssd1306_unbind_spi.  `dNull` models calling it with a null `d`. -/
def ssd1306_unbind_spi (dNull : Bool) (d : ssd1306_t) (env : UnbindEnv) :
    Int × ssd1306_t × List Event :=
  if dNull then (ESP_OK, d, [])
  else
    match d.bus_ctx with
    | none => (ESP_OK, d, [])
    | some ctx =>
      let step1 : Int × List Event :=
        if ctx.dev then
          (if env.remove_device_result ≠ ESP_OK then env.remove_device_result
           else ESP_OK,
           [Event.busRemoveDevice])
        else (ESP_OK, [])
      (step1.1, { vt := false, bus_ctx := none },
       step1.2 ++ gpio_conf_disable ctx.dc_gpio ++
         gpio_conf_disable ctx.rst_gpio ++ [Event.freeCtx])

/-- One call of the public bind/unbind API on a (non-null) device handle,
together with the environment answers it receives. -/
inductive Call where
  | bind (host cs_gpio dc_gpio rst_gpio clk_hz : Int) (env : BindEnv)
  | unbind (env : UnbindEnv)

/-- The handle state after one API call. -/
def stepCall (d : ssd1306_t) (c : Call) : ssd1306_t :=
  match c with
  | Call.bind host cs dc rst clk env =>
      (ssd1306_bind_spi false d host cs dc rst clk env).2.1
  | Call.unbind env => (ssd1306_unbind_spi false d env).2.1

/-- The bound/unbound invariant: vtable and context pointers are both set
or both null. -/
def bound_inv (d : ssd1306_t) : Prop :=
  (d.vt = true ∧ d.bus_ctx ≠ none) ∨ (d.vt = false ∧ d.bus_ctx = none)

/-- A freshly created handle: vtable and context both null. -/
def initial_handle : ssd1306_t := { vt := false, bus_ctx := none }

/-- One SPI transaction as submitted to `spi_device_polling_transmit`:
the chunk of bytes in `tx_buffer` and the D/C bit packed into `user`. -/
structure SpiTxn where
  payload : List Nat
  dc : Nat
  deriving DecidableEq, Repr

/-- The chunking loop shared by spi_send_cmd and spi_send_data.  `env j` is
the result the bus returns for the j-th transmit of the call.  Returns the
transactions attempted (in order, including a final failing one) and the
esp_err_t result. -/
def chunk_loop (MAX : Nat) (hM : 0 < MAX) (dc : Nat) (env : Nat → Int)
    (k : Nat) (bytes : List Nat) : List SpiTxn × Int :=
  if h : bytes = [] then ([], ESP_OK)
  else
    let blk := min MAX bytes.length
    let t : SpiTxn := { payload := bytes.take blk, dc := dc }
    if env k = ESP_OK then
      let rest := chunk_loop MAX hM dc env (k + 1) (bytes.drop blk)
      (t :: rest.1, rest.2)
    else ([t], env k)
termination_by bytes.length
decreasing_by
  have hb : 0 < bytes.length := List.length_pos.mpr h
  simp only [List.length_drop]
  omega

/-- spi_send_cmd: guard, then 32-byte chunks with D/C = 0. -/
def spi_send_cmd (ctxNull bufNull : Bool) (cmds : List Nat)
    (env : Nat → Int) : List SpiTxn × Int :=
  if ctxNull ∨ bufNull ∨ cmds.length = 0 then ([], ESP_OK)
  else chunk_loop 32 (by norm_num) 0 env 0 cmds

/-- spi_send_data: guard, then 1024-byte chunks with D/C = 1. -/
def spi_send_data (ctxNull bufNull : Bool) (data : List Nat)
    (env : Nat → Int) : List SpiTxn × Int :=
  if ctxNull ∨ bufNull ∨ data.length = 0 then ([], ESP_OK)
  else chunk_loop 1024 (by norm_num) 1 env 0 data

/-- spi_reset: no-op with a null context or no reset pin; otherwise drive
the reset line low, wait 10 ms, drive it high, wait 10 ms. -/
def spi_reset (ctxNull : Bool) (ctx : ssd1306_spi_ctx_t) : Int × List Event :=
  if ctxNull then (ESP_OK, [])
  else if ctx.rst_gpio = GPIO_NUM_NC then (ESP_OK, [])
  else
    (ESP_OK,
     [Event.gpioSetLevel ctx.rst_gpio 0, Event.delayMs 10,
      Event.gpioSetLevel ctx.rst_gpio 1, Event.delayMs 10])

/-- Width of `uintptr_t` on the target (32-bit MCU). -/
def UINTPTR_WIDTH : Nat := 32

/-- pack_user: `(void *)((uintptr_t)c | (uintptr_t)(dc_bit & 1))`. -/
def pack_user (c : Nat) (dc_bit : Nat) : Nat := c ||| (dc_bit &&& 1)

/-- unpack_ctx: `(uintptr_t)u & ~(uintptr_t)1`, i.e. mask with
`2 ^ 32 - 2` on the 32-bit target. -/
def unpack_ctx (u : Nat) : Nat := u &&& (2 ^ UINTPTR_WIDTH - 2)

/-- unpack_dc: `(uintptr_t)u & 1`. -/
def unpack_dc (u : Nat) : Nat := u &&& 1

/-- chunk_loop on the empty payload: the while loop exits immediately. -/
theorem chunk_loop_nil (MAX : Nat) (hM : 0 < MAX) (dc : Nat)
    (env : Nat → Int) (k : Nat) :
    chunk_loop MAX hM dc env k [] = ([], ESP_OK) := by
  unfold chunk_loop
  simp

/-- chunk_loop on a non-empty payload when the transmit at index `k`
succeeds: record the chunk and continue on the rest. -/
theorem chunk_loop_cons_ok (MAX : Nat) (hM : 0 < MAX) (dc : Nat)
    (env : Nat → Int) (k : Nat) (bytes : List Nat) (hb : bytes ≠ [])
    (he : env k = ESP_OK) :
    chunk_loop MAX hM dc env k bytes =
      ({ payload := bytes.take (min MAX bytes.length), dc := dc } ::
         (chunk_loop MAX hM dc env (k + 1)
            (bytes.drop (min MAX bytes.length))).1,
       (chunk_loop MAX hM dc env (k + 1)
          (bytes.drop (min MAX bytes.length))).2) := by
  conv_lhs => unfold chunk_loop
  simp [hb, he]

/-- chunk_loop on a non-empty payload when the transmit at index `k`
fails: the failing transaction is the last one attempted and its error
code is returned at once. -/
theorem chunk_loop_cons_fail (MAX : Nat) (hM : 0 < MAX) (dc : Nat)
    (env : Nat → Int) (k : Nat) (bytes : List Nat) (hb : bytes ≠ [])
    (he : env k ≠ ESP_OK) :
    chunk_loop MAX hM dc env k bytes =
      ([{ payload := bytes.take (min MAX bytes.length), dc := dc }], env k) := by
  conv_lhs => unfold chunk_loop
  simp [hb, he]

/-- Full behaviour of the chunking loop: every attempted transaction
carries the given D/C bit and a non-empty chunk of at most `MAX` bytes,
the chunks concatenate to a prefix of the payload (to all of it on
success), the loop succeeds when every transmit succeeds, and on failure
it stops at the first failing transmit and returns its error code. -/
theorem chunk_loop_spec (MAX : Nat) (hM : 0 < MAX) (dc : Nat)
    (env : Nat → Int) :
    ∀ (n : Nat) (bytes : List Nat) (k : Nat), bytes.length ≤ n →
      (∀ t ∈ (chunk_loop MAX hM dc env k bytes).1,
          t.dc = dc ∧ 0 < t.payload.length ∧ t.payload.length ≤ MAX) ∧
      (∃ r, ((chunk_loop MAX hM dc env k bytes).1.map SpiTxn.payload).flatten
              ++ r = bytes) ∧
      ((chunk_loop MAX hM dc env k bytes).2 = ESP_OK →
        ((chunk_loop MAX hM dc env k bytes).1.map SpiTxn.payload).flatten
          = bytes) ∧
      ((∀ j, j < (chunk_loop MAX hM dc env k bytes).1.length →
          env (k + j) = ESP_OK) →
        (chunk_loop MAX hM dc env k bytes).2 = ESP_OK) ∧
      ((chunk_loop MAX hM dc env k bytes).2 ≠ ESP_OK →
        (chunk_loop MAX hM dc env k bytes).1 ≠ [] ∧
        (chunk_loop MAX hM dc env k bytes).2 =
          env (k + ((chunk_loop MAX hM dc env k bytes).1.length - 1)) ∧
        ∀ j, j + 1 < (chunk_loop MAX hM dc env k bytes).1.length →
          env (k + j) = ESP_OK) := by
  intro n
  induction n with
  | zero =>
    intro bytes k hlen
    have hb : bytes = [] := List.eq_nil_of_length_eq_zero (Nat.le_zero.mp hlen)
    subst hb
    rw [chunk_loop_nil]
    exact ⟨by simp, ⟨[], by simp⟩, by simp, by simp, by simp⟩
  | succ n ih =>
    intro bytes k hlen
    by_cases hb : bytes = []
    · subst hb
      rw [chunk_loop_nil]
      exact ⟨by simp, ⟨[], by simp⟩, by simp, by simp, by simp⟩
    · have hlp : 0 < bytes.length := List.length_pos.mpr hb
      have hblk_pos : 0 < min MAX bytes.length := lt_min hM hlp
      have hblk_le : min MAX bytes.length ≤ MAX := min_le_left _ _
      have htake : (bytes.take (min MAX bytes.length)).length =
          min MAX bytes.length := by
        simp only [List.length_take]
        omega
      have hdrop : (bytes.drop (min MAX bytes.length)).length ≤ n := by
        simp only [List.length_drop]
        omega
      by_cases he : env k = ESP_OK
      · rw [chunk_loop_cons_ok MAX hM dc env k bytes hb he]
        obtain ⟨ih1, ⟨r, ih2⟩, ih3, ih4, ih5⟩ :=
          ih (bytes.drop (min MAX bytes.length)) (k + 1) hdrop
        refine ⟨?_, ?_, ?_, ?_, ?_⟩
        · intro t ht
          rcases List.mem_cons.mp ht with h | h
          · subst h
            refine ⟨rfl, ?_, ?_⟩ <;> (simp [htake]; try omega)
          · exact ih1 t h
        · refine ⟨r, ?_⟩
          simp only [List.map_cons, List.flatten_cons, List.append_assoc]
          rw [ih2, List.take_append_drop]
        · intro hok
          simp only at hok
          simp only [List.map_cons, List.flatten_cons]
          rw [ih3 hok, List.take_append_drop]
        · intro hall
          simp only [List.length_cons] at hall
          simp only
          apply ih4
          intro j hj
          have := hall (j + 1) (by omega)
          rw [show k + 1 + j = k + (j + 1) by omega]
          exact this
        · intro hne
          simp only at hne
          obtain ⟨hne1, heq1, hprev1⟩ := ih5 hne
          have hL : 0 <
              (chunk_loop MAX hM dc env (k + 1)
                (bytes.drop (min MAX bytes.length))).1.length :=
            List.length_pos.mpr hne1
          refine ⟨by simp, ?_, ?_⟩
          · simp only [List.length_cons]
            rw [show k + ((chunk_loop MAX hM dc env (k + 1)
                  (bytes.drop (min MAX bytes.length))).1.length + 1 - 1) =
                k + 1 + ((chunk_loop MAX hM dc env (k + 1)
                  (bytes.drop (min MAX bytes.length))).1.length - 1) by omega]
            exact heq1
          · intro j hj
            simp only [List.length_cons] at hj
            cases j with
            | zero => simpa using he
            | succ m =>
              have := hprev1 m (by omega)
              rw [show k + (m + 1) = k + 1 + m by omega]
              exact this
      · rw [chunk_loop_cons_fail MAX hM dc env k bytes hb he]
        refine ⟨?_, ⟨bytes.drop (min MAX bytes.length), ?_⟩, ?_, ?_, ?_⟩
        · intro t ht
          rcases List.mem_cons.mp ht with h | h
          · subst h
            refine ⟨rfl, ?_, ?_⟩ <;> (simp [htake]; try omega)
          · simp at h
        · simp [List.take_append_drop]
        · intro hok
          exact absurd hok he
        · intro hall
          have := hall 0 (by simp)
          simp at this
          exact absurd this he
        · intro _
          refine ⟨by simp, by simp, ?_⟩
          intro j hj
          simp at hj

/-- One bind or unbind call preserves the bound/unbound invariant:
every exit path either leaves the handle untouched or writes vtable and
context together. -/
theorem stepCall_preserves_bound_inv (d : ssd1306_t) (c : Call)
    (h : bound_inv d) : bound_inv (stepCall d c) := by
  cases c with
  | bind host cs dc rst clk env =>
    simp only [stepCall, ssd1306_bind_spi]
    split_ifs <;> simp_all [bound_inv]
  | unbind env =>
    simp only [stepCall, ssd1306_unbind_spi]
    cases hc : d.bus_ctx <;> simp_all [bound_inv]

/-- C2: starting from a fresh handle, after any sequence of bind and
unbind calls (including failing ones) the vtable pointer and the backend
context pointer are both set or both null, never one without the other. -/
theorem claim_C2_bound_unbound_invariant (calls : List Call) :
    bound_inv (List.foldl stepCall initial_handle calls) := by
  have haux : ∀ (cs : List Call) (d : ssd1306_t), bound_inv d →
      bound_inv (List.foldl stepCall d cs) := by
    intro cs
    induction cs with
    | nil => intro d hd; exact hd
    | cons c cs ih =>
      intro d hd
      rw [List.foldl_cons]
      exact ih _ (stepCall_preserves_bound_inv d c hd)
  exact haux calls initial_handle (Or.inr ⟨rfl, rfl⟩)

/-- C3: when `calloc` fails after `spi_bus_add_device` succeeded,
`ssd1306_bind_spi` removes the freshly-added device from the bus, returns
`ESP_ERR_NO_MEM`, and leaves the handle exactly as it was, so an unbound
handle stays unbound rather than partially bound. -/
theorem claim_C3_alloc_failure_rollback (d : ssd1306_t)
    (host cs dc rst clk : Int) (env : BindEnv) (hdc : dc ≠ GPIO_NUM_NC)
    (hadd : env.add_device_result = ESP_OK) (hcalloc : env.calloc_ok = false) :
    ssd1306_bind_spi false d host cs dc rst clk env =
      (ESP_ERR_NO_MEM, d,
       gpio_conf_output dc 0 ++ gpio_conf_output rst 1 ++
         [Event.busAddDevice host cs (if clk ≤ 0 then 8 * 1000 * 1000 else clk),
          Event.busRemoveDevice]) := by
  simp [ssd1306_bind_spi, hdc, hadd, hcalloc]

/-- Witness for C3 at a concrete handle and pin assignment. -/
theorem claim_C3_witness :
    ssd1306_bind_spi false initial_handle 1 5 6 7 1000000 ⟨ESP_OK, false⟩ =
      (ESP_ERR_NO_MEM, initial_handle,
       gpio_conf_output 6 0 ++ gpio_conf_output 7 1 ++
         [Event.busAddDevice 1 5 (if (1000000 : Int) ≤ 0 then 8 * 1000 * 1000
                                  else 1000000),
          Event.busRemoveDevice]) :=
  claim_C3_alloc_failure_rollback initial_handle 1 5 6 7 1000000
    ⟨ESP_OK, false⟩ (by decide) rfl rfl

/-- C4: spi_send_cmd and spi_send_data with a null context, a null payload
pointer, or a zero-length payload perform no bus transaction and return
`ESP_OK`; spi_reset with a null context likewise does nothing and returns
`ESP_OK`. -/
theorem claim_C4_null_empty_noop (ctxNull bufNull : Bool) (bytes : List Nat)
    (env : Nat → Int) (ctx : ssd1306_spi_ctx_t)
    (h : ctxNull = true ∨ bufNull = true ∨ bytes = []) :
    spi_send_cmd ctxNull bufNull bytes env = ([], ESP_OK) ∧
    spi_send_data ctxNull bufNull bytes env = ([], ESP_OK) ∧
    spi_reset true ctx = (ESP_OK, []) := by
  have hg : (ctxNull = true) ∨ (bufNull = true) ∨ (bytes.length = 0) := by
    rcases h with h | h | h
    · exact Or.inl h
    · exact Or.inr (Or.inl h)
    · exact Or.inr (Or.inr (by simp [h]))
  refine ⟨?_, ?_, by simp [spi_reset]⟩ <;>
    · rcases hg with h | h | h <;> simp [spi_send_cmd, spi_send_data, h]

/-- Witness for C4 with a null context pointer. -/
theorem claim_C4_witness :
    spi_send_cmd true false [1, 2, 3] (fun _ => ESP_OK) = ([], ESP_OK) ∧
    spi_send_data true false [1, 2, 3] (fun _ => ESP_OK) = ([], ESP_OK) ∧
    spi_reset true { dev := true, host := 1, dc_gpio := 6, rst_gpio := 7,
                     clk_hz := 8000000 } = (ESP_OK, []) :=
  claim_C4_null_empty_noop true false [1, 2, 3] (fun _ => ESP_OK)
    { dev := true, host := 1, dc_gpio := 6, rst_gpio := 7, clk_hz := 8000000 }
    (Or.inl rfl)

/-- C5: on the successful bind path, with a reset pin configured the code
pulses the reset line (high, 1 ms, low, 1 ms, high, 5 ms) and only then
publishes vtable and context into the handle; with no reset pin there is
no pulse (no level changes or delays at all) and the bind still succeeds. -/
theorem claim_C5_reset_pulse_before_publish (d : ssd1306_t)
    (host cs dc rst clk : Int) (env : BindEnv) (hdc : dc ≠ GPIO_NUM_NC)
    (hadd : env.add_device_result = ESP_OK) (hcalloc : env.calloc_ok = true) :
    (rst ≠ GPIO_NUM_NC →
      ssd1306_bind_spi false d host cs dc rst clk env =
        (ESP_OK,
         { vt := true,
           bus_ctx := some { dev := true, host := host, dc_gpio := dc,
                             rst_gpio := rst,
                             clk_hz := if clk ≤ 0 then 8 * 1000 * 1000
                                       else clk } },
         gpio_conf_output dc 0 ++ gpio_conf_output rst 1 ++
           [Event.busAddDevice host cs (if clk ≤ 0 then 8 * 1000 * 1000
                                        else clk),
            Event.gpioSetLevel rst 1, Event.delayMs 1,
            Event.gpioSetLevel rst 0, Event.delayMs 1,
            Event.gpioSetLevel rst 1, Event.delayMs 5,
            Event.publishHandle])) ∧
    (rst = GPIO_NUM_NC →
      ssd1306_bind_spi false d host cs dc rst clk env =
        (ESP_OK,
         { vt := true,
           bus_ctx := some { dev := true, host := host, dc_gpio := dc,
                             rst_gpio := rst,
                             clk_hz := if clk ≤ 0 then 8 * 1000 * 1000
                                       else clk } },
         gpio_conf_output dc 0 ++
           [Event.busAddDevice host cs (if clk ≤ 0 then 8 * 1000 * 1000
                                        else clk),
            Event.publishHandle])) := by
  constructor <;> intro h <;>
    simp [ssd1306_bind_spi, gpio_conf_output, hdc, hadd, hcalloc, h]

/-- Witness for C5 with reset pin 7 configured. -/
theorem claim_C5_witness :
    ssd1306_bind_spi false initial_handle 1 5 6 7 1000000 ⟨ESP_OK, true⟩ =
      (ESP_OK,
       { vt := true,
         bus_ctx := some { dev := true, host := 1, dc_gpio := 6, rst_gpio := 7,
                           clk_hz := if (1000000 : Int) ≤ 0
                                     then 8 * 1000 * 1000 else 1000000 } },
       gpio_conf_output 6 0 ++ gpio_conf_output 7 1 ++
         [Event.busAddDevice 1 5 (if (1000000 : Int) ≤ 0 then 8 * 1000 * 1000
                                  else 1000000),
          Event.gpioSetLevel 7 1, Event.delayMs 1,
          Event.gpioSetLevel 7 0, Event.delayMs 1,
          Event.gpioSetLevel 7 1, Event.delayMs 5,
          Event.publishHandle]) :=
  (claim_C5_reset_pulse_before_publish initial_handle 1 5 6 7 1000000
    ⟨ESP_OK, true⟩ (by decide) rfl rfl).1 (by decide)

/-- C6: a null device handle or an unconnected D/C pin makes
`ssd1306_bind_spi` return `ESP_ERR_INVALID_ARG` with no bus registration,
no GPIO activity, and the handle untouched. -/
theorem claim_C6_invalid_argument (dNull : Bool) (d : ssd1306_t)
    (host cs dc rst clk : Int) (env : BindEnv)
    (h : dNull = true ∨ dc = GPIO_NUM_NC) :
    ssd1306_bind_spi dNull d host cs dc rst clk env =
      (ESP_ERR_INVALID_ARG, d, []) := by
  rcases h with h | h
  · simp [ssd1306_bind_spi, h]
  · cases dNull <;> simp [ssd1306_bind_spi, h]

/-- Witness for C6 with the D/C pin not connected. -/
theorem claim_C6_witness :
    ssd1306_bind_spi false initial_handle 1 5 GPIO_NUM_NC 7 1000000
      ⟨ESP_OK, true⟩ = (ESP_ERR_INVALID_ARG, initial_handle, []) :=
  claim_C6_invalid_argument false initial_handle 1 5 GPIO_NUM_NC 7 1000000
    ⟨ESP_OK, true⟩ (Or.inr rfl)

/-- C7: spi_reset with a configured reset pin drives the line low, waits
10 ms, drives it high again (waiting a further 10 ms) and returns
`ESP_OK`; with no reset pin it performs no GPIO operation and returns
`ESP_OK`. -/
theorem claim_C7_reset_hold (ctx : ssd1306_spi_ctx_t) :
    (ctx.rst_gpio ≠ GPIO_NUM_NC →
      spi_reset false ctx =
        (ESP_OK,
         [Event.gpioSetLevel ctx.rst_gpio 0, Event.delayMs 10,
          Event.gpioSetLevel ctx.rst_gpio 1, Event.delayMs 10])) ∧
    (ctx.rst_gpio = GPIO_NUM_NC → spi_reset false ctx = (ESP_OK, [])) := by
  constructor <;> intro h <;> simp [spi_reset, h]

/-- Witness for C7 with reset pin 7 configured. -/
theorem claim_C7_witness :
    spi_reset false { dev := true, host := 1, dc_gpio := 6, rst_gpio := 7,
                      clk_hz := 8000000 } =
      (ESP_OK,
       [Event.gpioSetLevel 7 0, Event.delayMs 10,
        Event.gpioSetLevel 7 1, Event.delayMs 10]) :=
  (claim_C7_reset_hold
    { dev := true, host := 1, dc_gpio := 6, rst_gpio := 7,
      clk_hz := 8000000 }).1 (by decide)

/-- C8: unbinding a bound handle emits exactly one bus deregistration,
reconfigures the D/C and reset pins to the disabled state, frees the
backend context, and nulls vtable and context together. -/
theorem claim_C8_unbind_teardown (d : ssd1306_t) (ctx : ssd1306_spi_ctx_t)
    (env : UnbindEnv) (hctx : d.bus_ctx = some ctx) (hdev : ctx.dev = true) :
    ssd1306_unbind_spi false d env =
      (env.remove_device_result, { vt := false, bus_ctx := none },
       Event.busRemoveDevice ::
         (gpio_conf_disable ctx.dc_gpio ++ gpio_conf_disable ctx.rst_gpio ++
          [Event.freeCtx])) ∧
    (ssd1306_unbind_spi false d env).2.2.count Event.busRemoveDevice = 1 := by
  have hret : (if env.remove_device_result ≠ ESP_OK then env.remove_device_result
               else ESP_OK) = env.remove_device_result := by
    split
    · rfl
    · simp_all
  have heq : ssd1306_unbind_spi false d env =
      (env.remove_device_result, { vt := false, bus_ctx := none },
       Event.busRemoveDevice ::
         (gpio_conf_disable ctx.dc_gpio ++ gpio_conf_disable ctx.rst_gpio ++
          [Event.freeCtx])) := by
    simp [ssd1306_unbind_spi, hctx, hdev, hret]
  refine ⟨heq, ?_⟩
  rw [heq]
  simp only [List.count_cons, List.count_append]
  unfold gpio_conf_disable
  split <;> split <;> simp [List.count]

/-- Witness for C8 on a bound handle with both control pins configured. -/
theorem claim_C8_witness :
    (ssd1306_unbind_spi false
       { vt := true, bus_ctx := some { dev := true, host := 1, dc_gpio := 6,
                                       rst_gpio := 7, clk_hz := 8000000 } }
       ⟨ESP_OK⟩ =
      (ESP_OK, { vt := false, bus_ctx := none },
       Event.busRemoveDevice ::
         (gpio_conf_disable 6 ++ gpio_conf_disable 7 ++ [Event.freeCtx]))) ∧
    (ssd1306_unbind_spi false
       { vt := true, bus_ctx := some { dev := true, host := 1, dc_gpio := 6,
                                       rst_gpio := 7, clk_hz := 8000000 } }
       ⟨ESP_OK⟩).2.2.count Event.busRemoveDevice = 1 :=
  claim_C8_unbind_teardown
    { vt := true, bus_ctx := some { dev := true, host := 1, dc_gpio := 6,
                                    rst_gpio := 7, clk_hz := 8000000 } }
    { dev := true, host := 1, dc_gpio := 6, rst_gpio := 7, clk_hz := 8000000 }
    ⟨ESP_OK⟩ rfl rfl

/-- C10: a non-positive clock argument is not rejected; the bind behaves
exactly as if 8 MHz had been passed, registers the device with 8 MHz, and
on success stores 8 MHz in the backend context. -/
theorem claim_C10_default_clock (d : ssd1306_t) (host cs dc rst clk : Int)
    (env : BindEnv) (hdc : dc ≠ GPIO_NUM_NC) (hclk : clk ≤ 0) :
    ssd1306_bind_spi false d host cs dc rst clk env =
      ssd1306_bind_spi false d host cs dc rst (8 * 1000 * 1000) env ∧
    (env.add_device_result ≠ ESP_ERR_INVALID_ARG →
      (ssd1306_bind_spi false d host cs dc rst clk env).1 ≠
        ESP_ERR_INVALID_ARG) ∧
    Event.busAddDevice host cs (8 * 1000 * 1000) ∈
      (ssd1306_bind_spi false d host cs dc rst clk env).2.2 ∧
    (env.add_device_result = ESP_OK → env.calloc_ok = true →
      (ssd1306_bind_spi false d host cs dc rst clk env).1 = ESP_OK ∧
      (ssd1306_bind_spi false d host cs dc rst clk env).2.1.bus_ctx =
        some { dev := true, host := host, dc_gpio := dc, rst_gpio := rst,
               clk_hz := 8 * 1000 * 1000 }) := by
  refine ⟨?_, ?_, ?_, ?_⟩
  · simp [ssd1306_bind_spi, hdc, hclk]
  · intro hne
    by_cases h1 : env.add_device_result = ESP_OK
    · by_cases h2 : env.calloc_ok
      · simp [ssd1306_bind_spi, hdc, hclk, h1, h2]
        decide
      · have h2f : env.calloc_ok = false := by simpa using h2
        simp [ssd1306_bind_spi, hdc, hclk, h1, h2f]
        decide
    · simp [ssd1306_bind_spi, hdc, hclk, h1]
      exact hne
  · by_cases h1 : env.add_device_result = ESP_OK
    · by_cases h2 : env.calloc_ok
      · simp [ssd1306_bind_spi, hdc, hclk, h1, h2]
      · have h2f : env.calloc_ok = false := by simpa using h2
        simp [ssd1306_bind_spi, hdc, hclk, h1, h2f]
    · simp [ssd1306_bind_spi, hdc, hclk, h1]
  · intro hadd hcalloc
    simp [ssd1306_bind_spi, hdc, hclk, hadd, hcalloc]

/-- C9: packing a backend context address with clear least-significant
bit together with a D/C bit round-trips: unpack_ctx recovers the address
and unpack_dc recovers `dc & 1`, so the pre-transfer callback sees exactly
what the sending function packed. -/
theorem claim_C9_pack_user_roundtrip (c dc : Nat)
    (hc : c < 2 ^ UINTPTR_WIDTH) (hlsb : c % 2 = 0) :
    unpack_ctx (pack_user c dc) = c ∧
    unpack_dc (pack_user c dc) = dc &&& 1 := by
  have hb0 : c.testBit 0 = false := by
    simp [Nat.testBit_zero, hlsb]
  constructor
  · apply Nat.eq_of_testBit_eq
    intro i
    simp only [unpack_ctx, pack_user, UINTPTR_WIDTH, Nat.testBit_land,
      Nat.testBit_lor, Nat.and_one_is_mod]
    cases i with
    | zero =>
      have hm : Nat.testBit 4294967294 0 = false := by
        rw [Nat.testBit_zero]
        norm_num
      simp [hm, hb0]
    | succ j =>
      have hd2 : (dc % 2).testBit (j + 1) = false := by
        rw [Nat.testBit_succ]
        have hz : dc % 2 / 2 = 0 :=
          Nat.div_eq_of_lt (Nat.mod_lt _ (by norm_num))
        simp [hz]
      have hm : Nat.testBit 4294967294 (j + 1) = decide (j < 31) := by
        rw [Nat.testBit_succ]
        have h2 : (4294967294 : Nat) / 2 = 2 ^ 31 - 1 := by norm_num
        rw [h2, Nat.testBit_two_pow_sub_one]
      by_cases hj : j < 31
      · simp [hm, hj, hd2]
      · have hcb : c.testBit (j + 1) = false := by
          apply Nat.testBit_lt_two_pow
          have hle : (2 : Nat) ^ 32 ≤ 2 ^ (j + 1) :=
            Nat.pow_le_pow_right (by norm_num) (by omega)
          exact lt_of_lt_of_le hc hle
        simp [hm, hj, hd2, hcb]
  · apply Nat.eq_of_testBit_eq
    intro i
    simp only [unpack_dc, pack_user, Nat.testBit_land, Nat.testBit_lor]
    cases i with
    | zero => simp [hb0]
    | succ j =>
      have h1 : (1 : Nat).testBit (j + 1) = false := by
        rw [Nat.testBit_succ]
        simp
      simp [h1]

/-- Witness for C9 at context address 4 and D/C argument 3. -/
theorem claim_C9_witness :
    unpack_ctx (pack_user 4 3) = 4 ∧ unpack_dc (pack_user 4 3) = 3 &&& 1 :=
  claim_C9_pack_user_roundtrip 4 3 (by norm_num [UINTPTR_WIDTH]) (by norm_num)

/-- C1: for non-empty payloads, spi_send_cmd transmits the bytes in order
as consecutive command-marked transactions of at most 32 bytes each, and
spi_send_data as data-marked transactions of at most 1024 bytes each; the
chunks concatenate to a prefix of the input (to all of it on success), the
call succeeds when every bus transaction succeeds, and a failing
transaction ends the call at once with that transaction's error code. -/
theorem claim_C1_chunked_transmission (cmds data : List Nat)
    (envc envd : Nat → Int) (hc : cmds ≠ []) (hd : data ≠ []) :
    (∀ t ∈ (spi_send_cmd false false cmds envc).1,
        t.dc = 0 ∧ 0 < t.payload.length ∧ t.payload.length ≤ 32) ∧
    (∃ r, ((spi_send_cmd false false cmds envc).1.map
             SpiTxn.payload).flatten ++ r = cmds) ∧
    ((spi_send_cmd false false cmds envc).2 = ESP_OK →
      ((spi_send_cmd false false cmds envc).1.map
         SpiTxn.payload).flatten = cmds) ∧
    ((∀ j, j < (spi_send_cmd false false cmds envc).1.length →
        envc j = ESP_OK) →
      (spi_send_cmd false false cmds envc).2 = ESP_OK) ∧
    ((spi_send_cmd false false cmds envc).2 ≠ ESP_OK →
      (spi_send_cmd false false cmds envc).1 ≠ [] ∧
      (spi_send_cmd false false cmds envc).2 =
        envc ((spi_send_cmd false false cmds envc).1.length - 1) ∧
      ∀ j, j + 1 < (spi_send_cmd false false cmds envc).1.length →
        envc j = ESP_OK) ∧
    (∀ t ∈ (spi_send_data false false data envd).1,
        t.dc = 1 ∧ 0 < t.payload.length ∧ t.payload.length ≤ 1024) ∧
    (∃ r, ((spi_send_data false false data envd).1.map
             SpiTxn.payload).flatten ++ r = data) ∧
    ((spi_send_data false false data envd).2 = ESP_OK →
      ((spi_send_data false false data envd).1.map
         SpiTxn.payload).flatten = data) ∧
    ((∀ j, j < (spi_send_data false false data envd).1.length →
        envd j = ESP_OK) →
      (spi_send_data false false data envd).2 = ESP_OK) ∧
    ((spi_send_data false false data envd).2 ≠ ESP_OK →
      (spi_send_data false false data envd).1 ≠ [] ∧
      (spi_send_data false false data envd).2 =
        envd ((spi_send_data false false data envd).1.length - 1) ∧
      ∀ j, j + 1 < (spi_send_data false false data envd).1.length →
        envd j = ESP_OK) := by
  have hcmd : spi_send_cmd false false cmds envc =
      chunk_loop 32 (by norm_num) 0 envc 0 cmds := by
    simp [spi_send_cmd, hc]
  have hdat : spi_send_data false false data envd =
      chunk_loop 1024 (by norm_num) 1 envd 0 data := by
    simp [spi_send_data, hd]
  obtain ⟨hc1, hc2, hc3, hc4, hc5⟩ :=
    chunk_loop_spec 32 (by norm_num) 0 envc cmds.length cmds 0 le_rfl
  obtain ⟨hd1, hd2, hd3, hd4, hd5⟩ :=
    chunk_loop_spec 1024 (by norm_num) 1 envd data.length data 0 le_rfl
  simp only [Nat.zero_add] at hc1 hc2 hc3 hc4 hc5 hd1 hd2 hd3 hd4 hd5
  rw [hcmd, hdat]
  exact ⟨hc1, hc2, hc3, hc4, hc5, hd1, hd2, hd3, hd4, hd5⟩

/-- Witness for C1 on the one-byte payloads `[1]` and `[2]` with a bus
that always succeeds. -/
theorem claim_C1_witness :
    (∀ t ∈ (spi_send_cmd false false [1] (fun _ => ESP_OK)).1,
        t.dc = 0 ∧ 0 < t.payload.length ∧ t.payload.length ≤ 32) ∧
    (∃ r, ((spi_send_cmd false false [1] (fun _ => ESP_OK)).1.map
             SpiTxn.payload).flatten ++ r = [1]) ∧
    ((spi_send_cmd false false [1] (fun _ => ESP_OK)).2 = ESP_OK →
      ((spi_send_cmd false false [1] (fun _ => ESP_OK)).1.map
         SpiTxn.payload).flatten = [1]) ∧
    ((∀ j, j < (spi_send_cmd false false [1] (fun _ => ESP_OK)).1.length →
        (fun _ => ESP_OK : Nat → Int) j = ESP_OK) →
      (spi_send_cmd false false [1] (fun _ => ESP_OK)).2 = ESP_OK) ∧
    ((spi_send_cmd false false [1] (fun _ => ESP_OK)).2 ≠ ESP_OK →
      (spi_send_cmd false false [1] (fun _ => ESP_OK)).1 ≠ [] ∧
      (spi_send_cmd false false [1] (fun _ => ESP_OK)).2 =
        (fun _ => ESP_OK : Nat → Int)
          ((spi_send_cmd false false [1] (fun _ => ESP_OK)).1.length - 1) ∧
      ∀ j, j + 1 < (spi_send_cmd false false [1] (fun _ => ESP_OK)).1.length →
        (fun _ => ESP_OK : Nat → Int) j = ESP_OK) ∧
    (∀ t ∈ (spi_send_data false false [2] (fun _ => ESP_OK)).1,
        t.dc = 1 ∧ 0 < t.payload.length ∧ t.payload.length ≤ 1024) ∧
    (∃ r, ((spi_send_data false false [2] (fun _ => ESP_OK)).1.map
             SpiTxn.payload).flatten ++ r = [2]) ∧
    ((spi_send_data false false [2] (fun _ => ESP_OK)).2 = ESP_OK →
      ((spi_send_data false false [2] (fun _ => ESP_OK)).1.map
         SpiTxn.payload).flatten = [2]) ∧
    ((∀ j, j < (spi_send_data false false [2] (fun _ => ESP_OK)).1.length →
        (fun _ => ESP_OK : Nat → Int) j = ESP_OK) →
      (spi_send_data false false [2] (fun _ => ESP_OK)).2 = ESP_OK) ∧
    ((spi_send_data false false [2] (fun _ => ESP_OK)).2 ≠ ESP_OK →
      (spi_send_data false false [2] (fun _ => ESP_OK)).1 ≠ [] ∧
      (spi_send_data false false [2] (fun _ => ESP_OK)).2 =
        (fun _ => ESP_OK : Nat → Int)
          ((spi_send_data false false [2] (fun _ => ESP_OK)).1.length - 1) ∧
      ∀ j, j + 1 <
          (spi_send_data false false [2] (fun _ => ESP_OK)).1.length →
        (fun _ => ESP_OK : Nat → Int) j = ESP_OK) :=
  claim_C1_chunked_transmission [1] [2] (fun _ => ESP_OK) (fun _ => ESP_OK)
    (by decide) (by decide)

/-- Witness for C10 with a zero clock rate. -/
theorem claim_C10_witness :
    (ssd1306_bind_spi false initial_handle 1 5 6 7 0 ⟨ESP_OK, true⟩ =
      ssd1306_bind_spi false initial_handle 1 5 6 7 (8 * 1000 * 1000)
        ⟨ESP_OK, true⟩) ∧
    ((ESP_OK : Int) ≠ ESP_ERR_INVALID_ARG →
      (ssd1306_bind_spi false initial_handle 1 5 6 7 0 ⟨ESP_OK, true⟩).1 ≠
        ESP_ERR_INVALID_ARG) ∧
    Event.busAddDevice 1 5 (8 * 1000 * 1000) ∈
      (ssd1306_bind_spi false initial_handle 1 5 6 7 0 ⟨ESP_OK, true⟩).2.2 ∧
    ((ESP_OK : Int) = ESP_OK → true = true →
      (ssd1306_bind_spi false initial_handle 1 5 6 7 0 ⟨ESP_OK, true⟩).1 =
        ESP_OK ∧
      (ssd1306_bind_spi false initial_handle 1 5 6 7 0
          ⟨ESP_OK, true⟩).2.1.bus_ctx =
        some { dev := true, host := 1, dc_gpio := 6, rst_gpio := 7,
               clk_hz := 8 * 1000 * 1000 }) :=
  claim_C10_default_clock initial_handle 1 5 6 7 0 ⟨ESP_OK, true⟩
    (by decide) (by decide)

end Ssd1306
